import Mathlib

/-
Verification of the check-result classification and status-escalation
engine of the postgres_skill repository, against its two agents:
  postgres-daily-check/scripts/postgres_agent.py   (class PostgresAgent)
  polardb-daily-check/scripts/polardb_agent.py     (class PolarDBCheckAgent)
Python values arriving from the JSON check results are shallowly embedded
as the inductive type PyVal; Python numbers (ints and floats) are modelled
as rationals, and fallible Python operations (dict subscripting, numeric
coercion, division) return Except PyErr.
-/

/-- A dynamically typed scalar or container, as produced by json.loads. -/
inductive PyVal where
  | num (q : ℚ)
  | str (s : String)
  | bool (b : Bool)
  | pynone
  | list (xs : List PyVal)
  | dict (fs : List (String × PyVal))

/-- A Python dict with string keys, the shape of every JSON check result row. -/
abbrev PyDict := List (String × PyVal)

/-- Python exceptions that the embedded code can raise. -/
inductive PyErr where
  | keyError (k : String)
  | typeError (msg : String)
  | valueError (msg : String)
  | zeroDivisionError
deriving DecidableEq, Repr

/-
Rational arithmetic helpers. The embedded agent code performs its
arithmetic through these wrappers, which are definitionally equal to the
field operations on ℚ (bridging lemmas below) but are built directly on
Rat.divInt so that closed evaluations reduce inside the kernel.
-/

/-- The rational n/1. -/
def intToQ (n : ℤ) : ℚ := Rat.divInt n 1

/-- Product of two rationals. -/
def qMul (a b : ℚ) : ℚ := Rat.divInt (a.num * b.num) ((a.den : ℤ) * (b.den : ℤ))

/-- Quotient of two rationals (zero when the divisor is zero, as in ℚ). -/
def qDiv (a b : ℚ) : ℚ := Rat.divInt (a.num * (b.den : ℤ)) ((a.den : ℤ) * b.num)

/-- Sum of two rationals. -/
def qAdd (a b : ℚ) : ℚ :=
  Rat.divInt (a.num * (b.den : ℤ) + b.num * (a.den : ℤ)) ((a.den : ℤ) * (b.den : ℤ))

/-- Negation of a rational. -/
def qNeg (a : ℚ) : ℚ := Rat.divInt (-a.num) (a.den : ℤ)

/-- Difference of two rationals. -/
def qSub (a b : ℚ) : ℚ := qAdd a (qNeg b)

/-- Absolute value of a rational. -/
def qAbs (a : ℚ) : ℚ := if a < 0 then qNeg a else a

/-- Floor of a rational as an integer. -/
def floorQ (q : ℚ) : ℤ := Int.fdiv q.num (q.den : ℤ)

/-- Round-half-up of a rational, the model of Python float rounding used by
format specifiers (the inputs exercised here are never exact halves). -/
def roundQ (q : ℚ) : ℤ := Int.fdiv (2 * q.num + (q.den : ℤ)) (2 * (q.den : ℤ))

/-- dict.get(k): association-list lookup. -/
def dictGet (d : PyDict) (k : String) : Option PyVal :=
  List.lookup k d

/-- dict.get(k, default). -/
def dictGetD (d : PyDict) (k : String) (default : PyVal) : PyVal :=
  (List.lookup k d).getD default

/-- dict[k]: raises KeyError when the key is absent. -/
def pySubscript (d : PyDict) (k : String) : Except PyErr PyVal :=
  match List.lookup k d with
  | some v => .ok v
  | none => .error (.keyError k)

/-- Python truthiness of a value (bool(v)). -/
def PyVal.truthy : PyVal → Bool
  | .num q => if q = 0 then false else true
  | .str s => if s = "" then false else true
  | .bool b => b
  | .pynone => false
  | .list xs => !xs.isEmpty
  | .dict fs => !fs.isEmpty

/-- Python equality of a value against a string literal (v == "s"). -/
def pyEqStr (v : PyVal) (s : String) : Bool :=
  match v with
  | .str t => t == s
  | _ => false

/-- Numeric coercion used by Python arithmetic and comparisons: ints, floats
and bools participate, everything else raises TypeError. -/
def PyVal.toRatE : PyVal → Except PyErr ℚ
  | .num q => .ok q
  | .bool b => .ok (if b then 1 else 0)
  | _ => .error (.typeError "unsupported operand type")

/-- Python division, raising ZeroDivisionError on a zero denominator. -/
def pyDiv (a b : ℚ) : Except PyErr ℚ :=
  if b = 0 then .error .zeroDivisionError else .ok (qDiv a b)

/-- Parse a plain decimal literal (optional sign, digits, optional fraction),
the fragment of float(str) that JSON-shaped inputs can exercise. -/
def parseDecimal? (s : String) : Option ℚ :=
  let t := s.trim
  let core := fun (u : String) =>
    match u.splitOn "." with
    | [ip] => (ip.toNat?).map (fun n => intToQ n)
    | [ip, fp] =>
      match ip.toNat?, fp.toNat? with
      | some n, some f =>
        some (qAdd (intToQ n) (qDiv (intToQ f) (intToQ ((10 : ℤ) ^ fp.length))))
      | _, _ => none
    | _ => none
  if t.startsWith "-" then (core (t.drop 1)).map (fun q => -q)
  else if t.startsWith "+" then core (t.drop 1)
  else core t

/-- The float(...) builtin: numbers and bools convert, strings are parsed as
decimals (ValueError on failure), None and containers raise TypeError. -/
def pyFloat : PyVal → Except PyErr ℚ
  | .num q => .ok q
  | .bool b => .ok (if b then 1 else 0)
  | .str s =>
    match parseDecimal? s with
    | some q => .ok q
    | none => .error (.valueError s)
  | _ => .error (.typeError "float() argument")

/-- Whether the character list s starts with the pattern. -/
def charsStartWith : List Char → List Char → Bool
  | _, [] => true
  | [], _ :: _ => false
  | c :: cs, d :: ds => c == d && charsStartWith cs ds

/-- Whether the pattern occurs inside the character list. -/
def charsContain : List Char → List Char → Bool
  | s, pat =>
    charsStartWith s pat ||
      (match s with
       | [] => false
       | _ :: cs => charsContain cs pat)

/-- Substring containment, Python's `sub in s` for strings. -/
def strContains (s sub : String) : Bool :=
  charsContain s.data sub.data

/-- Python's str.strip(): remove leading and trailing whitespace. -/
def strStrip (s : String) : String :=
  ⟨((s.data.dropWhile Char.isWhitespace).reverse.dropWhile Char.isWhitespace).reverse⟩

/-- Python's str.lower(). -/
def strLower (s : String) : String :=
  ⟨s.data.map Char.toLower⟩

/-- Left-pad a digit string with zeros to a given width. -/
def padZeros (w : Nat) (s : String) : String :=
  ⟨List.replicate (w - s.length) (Char.ofNat 48)⟩ ++ s

/-- Fixed-point rendering of a nonnegative rational with d fractional digits,
the model of Python's format specifier .df for our rationals. -/
def formatRatNonneg (q : ℚ) (d : Nat) : String :=
  let scaled : ℤ := roundQ (qMul q (intToQ ((10 : ℤ) ^ d)))
  let ip : ℤ := Int.ediv scaled ((10 : ℤ) ^ d)
  let fp : ℤ := Int.emod scaled ((10 : ℤ) ^ d)
  if d = 0 then toString ip
  else toString ip ++ "." ++ padZeros d (toString fp.toNat)

/-- Fixed-point rendering of a rational with d fractional digits. -/
def formatRat (q : ℚ) (d : Nat) : String :=
  if q < 0 then "-" ++ formatRatNonneg (qNeg q) d else formatRatNonneg q d

/-- Decimal digits of a rational in [0,1), with fuel; used by str(float). -/
def fracDigits : Nat → ℚ → String
  | 0, _ => ""
  | n + 1, q =>
    if q = 0 then ""
    else
      let d : ℤ := floorQ (qMul q (intToQ 10))
      toString d.toNat ++ fracDigits n (qSub (qMul q (intToQ 10)) (intToQ d))

/-- str() of a number: integers render without a decimal point, other
rationals with their (truncated) decimal expansion. -/
def ratPyStr (q : ℚ) : String :=
  if q.den = 1 then toString q.num
  else
    let a : ℚ := qAbs q
    let ip : ℤ := floorQ a
    let digits := fracDigits 17 (qSub a (intToQ ip))
    (if q < 0 then "-" else "") ++ toString ip.toNat ++ "." ++
      (if digits = "" then "0" else digits)

mutual

/-- str() of a value, as interpolated by an f-string. -/
def pyStr : PyVal → String
  | .num q => ratPyStr q
  | .str s => s
  | .bool b => if b then "True" else "False"
  | .pynone => "None"
  | .list xs => "[" ++ pyStrList xs ++ "]"
  | .dict fs => "\x7b" ++ pyStrDict fs ++ "\x7d"

/-- repr() of a value: like str() but strings are quoted. -/
def pyRepr : PyVal → String
  | .str s => "\x27" ++ s ++ "\x27"
  | v => pyStrRepr v

/-- Helper so that repr of non-string values reuses the str rendering. -/
def pyStrRepr : PyVal → String
  | .num q => ratPyStr q
  | .str s => s
  | .bool b => if b then "True" else "False"
  | .pynone => "None"
  | .list xs => "[" ++ pyStrList xs ++ "]"
  | .dict fs => "\x7b" ++ pyStrDict fs ++ "\x7d"

/-- Comma-separated reprs of list elements. -/
def pyStrList : List PyVal → String
  | [] => ""
  | [x] => pyRepr x
  | x :: xs => pyRepr x ++ ", " ++ pyStrList xs

/-- Comma-separated reprs of dict entries. -/
def pyStrDict : List (String × PyVal) → String
  | [] => ""
  | [(k, v)] => "\x27" ++ k ++ "\x27: " ++ pyRepr v
  | (k, v) :: fs => "\x27" ++ k ++ "\x27: " ++ pyRepr v ++ ", " ++ pyStrDict fs

end

/-- Interpret a data payload as a list of rows (dicts); anything else raises
when the agent iterates it and calls dict methods on the elements. -/
def pyRows : PyVal → Except PyErr (List PyDict)
  | .list xs =>
    xs.mapM fun v =>
      match v with
      | .dict d => .ok d
      | _ => .error (.typeError "row is not a dict")
  | _ => .error (.typeError "data is not a list of rows")

/-- Overall report severity, the three values taken by
PostgresAgent.report_status (OK, WARNING, ERROR). -/
inductive Status where
  | ok
  | warning
  | error
deriving DecidableEq, Repr, Fintype

/-- PostgresAgent._update_status (postgres_agent.py lines 92-97): escalate to
ERROR always, to WARNING only when not already ERROR, otherwise unchanged. -/
def updateStatus (cur new : Status) : Status :=
  if new = Status.error then Status.error
  else if new = Status.warning ∧ cur ≠ Status.error then Status.warning
  else cur

/-- Numeric rank of a severity in the total order OK < WARNING < ERROR. -/
def Status.rank : Status → Nat
  | .ok => 0
  | .warning => 1
  | .error => 2

/-- The join (max) of two severities in the total order OK < WARNING < ERROR. -/
def statusMax (a b : Status) : Status :=
  if a.rank ≤ b.rank then b else a

/-- Folding _update_status over a list of finding severities, starting OK. -/
def foldStatus (l : List Status) : Status :=
  l.foldl updateStatus Status.ok

/-- The join of a list of severities. -/
def listJoin (l : List Status) : Status :=
  l.foldr statusMax Status.ok

/-- State threaded through PostgresAgent._analyze_and_report: the growing
report line list and the overall report_status. -/
structure AgentState where
  report : List String
  status : Status
deriving Repr

/-- Unit loop of PostgresAgent._bytes_to_human_readable. -/
def bytesToHumanAux : List String → ℚ → String
  | [], x => formatRat x 2 ++ " PB"
  | u :: us, x =>
    if qAbs x < 1024 then formatRat x 2 ++ " " ++ u
    else bytesToHumanAux us (qDiv x (intToQ 1024))

/-- PostgresAgent._bytes_to_human_readable (lines 29-38). -/
def bytesToHuman : Option ℚ → String
  | none => "N/A"
  | some q => bytesToHumanAux ["bytes", "KB", "MB", "GB", "TB"] q

/-- Python `sub in v`, which requires v to be a string here. -/
def pyIn (sub : String) (v : PyVal) : Except PyErr Bool :=
  match v with
  | .str s => .ok (strContains s sub)
  | _ => .error (.typeError "argument is not iterable")

/-- The two lines appended by the status != success early return of
_analyze_and_report (lines 108-112). -/
def pgSkillFailedLines (skillV dataV : PyVal) : List String :=
  ["### ❌ Skill Failed: `" ++ pyStr skillV ++ "`",
   "Error details: `" ++ pyStr dataV ++ "`"]

/-- One rendered line of the get_blocking_locks loop (lines 119-122); the
field accesses are direct subscripts and raise KeyError when absent. -/
def pgBlockingLockLine (lock : PyDict) : Except PyErr String := do
  let w ← pySubscript lock "waiting_pid"
  let b ← pySubscript lock "blocking_pid"
  pure ("- **Waiting PID:** " ++ pyStr w ++ " is blocked by **Blocking PID:** " ++
    pyStr b ++ ".")

/-- The get_blocking_locks branch of _analyze_and_report (lines 115-125). -/
def pgBlockingLocks (st : AgentState) (data : PyVal) : Except PyErr AgentState :=
  if data.truthy then do
    let rows ← pyRows data
    let lines ← rows.mapM pgBlockingLockLine
    pure ⟨st.report ++ ["### ❌ ERROR: Blocking Locks Detected",
        "Found " ++ toString rows.length ++ " blocking lock situations."] ++ lines,
      updateStatus st.status .error⟩
  else
    pure ⟨st.report ++ ["### ✅ OK: No Blocking Locks"], st.status⟩

/-- One table row of the bloat report (lines 234-236). -/
def pgBloatRowLine (item : PyDict) (bloatPct wasted total : ℚ) : String :=
  "| " ++ pyStr (dictGetD item "schemaname" (.str "N/A")) ++ " | `" ++
    pyStr (dictGetD item "tablename" (dictGetD item "index_name" (.str "N/A"))) ++
    "` | " ++ bytesToHuman (some total) ++ " | " ++ formatRat bloatPct 2 ++ "% | " ++
    bytesToHuman (some wasted) ++ " |"

/-- The row loop of the bloat branch (lines 225-236): renders every row and
records whether any row exceeds 20 percent bloat and 100 MiB waste. -/
def pgBloatLoop (lines : List String) (hasW : Bool) :
    List PyDict → Except PyErr (List String × Bool)
  | [] => .ok (lines, hasW)
  | item :: rest => do
    let bloatPct ← pyFloat (dictGetD item "bloat_percentage" (.num 0))
    let wasted ← pyFloat (dictGetD item "wasted_bytes" (.num 0))
    let total ← pyFloat (dictGetD item "total_bytes" (.num 0))
    let hasW := if bloatPct > 20 ∧ wasted > intToQ (100 * 1024 ^ 2) then true else hasW
    pgBloatLoop (lines ++ [pgBloatRowLine item bloatPct wasted total]) hasW rest

/-- The get_table_bloat / get_index_bloat branch of _analyze_and_report
(lines 216-246), including the header rewrite at index
len(report) - len(data) - 2 performed when a bloat warning was found. -/
def pgBloat (st : AgentState) (isTable : Bool) (data : PyVal) :
    Except PyErr AgentState :=
  let objType := if isTable then "Table" else "Index"
  let report := st.report ++ ["### 🟡 INFO: Top 10 Bloated " ++ objType ++ "s"]
  if data.truthy then do
    let rows ← pyRows data
    let report := report ++
      ["| Schema | " ++ objType ++ " Name | Total Size | Bloat % | Wasted Space |",
       "|---|---|---|---|---|"]
    let (report, hasW) ← pgBloatLoop report false rows
    if hasW then
      pure ⟨report.set (report.length - rows.length - 2)
          ("### 🟠 WARNING: Significant " ++ objType ++ " Bloat Detected"),
        updateStatus st.status .warning⟩
    else
      pure ⟨report, st.status⟩
  else
    pure ⟨report ++ ["No significant " ++ strLower objType ++
        " bloat detected (or objects are too small/new to check)."], st.status⟩

/-- The get_connection_usage branch of _analyze_and_report (lines 279-301);
used_connections and max_connections are direct subscripts of data[0]. -/
def pgConnectionUsage (st : AgentState) (data : PyVal) : Except PyErr AgentState :=
  if data.truthy then do
    let rows ← pyRows data
    let row := rows.headD []
    let usedV ← pySubscript row "used_connections"
    let maxV ← pySubscript row "max_connections"
    let used ← usedV.toRatE
    let maxConn ← maxV.toRatE
    let q ← pyDiv used maxConn
    let usagePercent := qMul q (intToQ 100)
    let (hdr, newStatus) :=
      if usagePercent > 95 then
        ("### ❌ ERROR: High Connection Usage (" ++ formatRat usagePercent 1 ++ "%)",
         updateStatus st.status .error)
      else if usagePercent > 80 then
        ("### 🟠 WARNING: High Connection Usage (" ++ formatRat usagePercent 1 ++ "%)",
         updateStatus st.status .warning)
      else
        ("### ✅ OK: Connection Usage (" ++ formatRat usagePercent 1 ++ "%)",
         st.status)
    pure ⟨st.report ++
        [hdr, "Current active connections: " ++ pyStr usedV ++ " / " ++ pyStr maxV],
      newStatus⟩
  else
    pure ⟨st.report ++ ["### 🟡 INFO: Connection Usage"], st.status⟩

/-- The slot loop of the get_replication_slots branch (lines 377-384). -/
def pgSlotsLoop (report : List String) (st : Status) (hasIssue : Bool) :
    List PyDict → Except PyErr (List String × Status × Bool)
  | [] => .ok (report, st, hasIssue)
  | slot :: rest => do
    let act ← pySubscript slot "active"
    if act.truthy then pgSlotsLoop report st hasIssue rest
    else do
      let lagV ← pySubscript slot "restart_lsn_lag_bytes"
      let lagB ← lagV.toRatE
      let lagGb := qDiv lagB (intToQ (1024 ^ 3))
      let nameV ← pySubscript slot "slot_name"
      pgSlotsLoop (report ++ ["- **" ++ pyStr nameV ++
          "**: ❌ **ERROR** - Slot is INACTIVE, holding back WAL logs by " ++
          formatRat lagGb 2 ++ " GB."])
        (updateStatus st .error) true rest

/-- The get_replication_slots branch of _analyze_and_report (lines 371-390):
notesRaw is result.get("notes") (no default), notesV the defaulted notes. -/
def pgReplicationSlots (st : AgentState) (data : PyVal) (notesV : PyVal)
    (notesRaw : Option PyVal) : Except PyErr AgentState := do
  let report := st.report ++ ["### 🟡 INFO: Replication Slots Status"]
  if !data.truthy &&
      !(match notesRaw with
        | some v => pyEqStr v "view or table does not exist"
        | none => false) then
    pure ⟨report ++ ["No replication slots found."], st.status⟩
  else if data.truthy then do
    let rows ← pyRows data
    let (report, newSt, hasIssue) ← pgSlotsLoop report st.status false rows
    if hasIssue then pure ⟨report, newSt⟩
    else pure ⟨report ++ ["All replication slots are active."], newSt⟩
  else do
    let inNotes ← pyIn "does not exist" notesV
    if inNotes then
      pure ⟨report ++ ["Replication slots are not applicable or view does not exist."],
        st.status⟩
    else pure ⟨report, st.status⟩

/-- One rendered replica line of get_replication_status (lines 414-416). -/
def pgReplicaLine (replica : PyDict) (lagMb : ℚ) : String :=
  "- **Replica:** `" ++ pyStr (dictGetD replica "client_addr" (.str "N/A")) ++
    "`, **State:** `" ++ pyStr (dictGetD replica "state" .pynone) ++
    "`, **Replay Lag:** `" ++ formatRat lagMb 2 ++ " MB`"

/-- The replica loop of get_replication_status (lines 412-422): thresholds
are 1024 MB (ERROR) and 100 MB (WARNING) on replay_lag_bytes / 2^20. -/
def pgReplLoop (report : List String) (st : Status) (hasLag : Bool) :
    List PyDict → Except PyErr (List String × Status × Bool)
  | [] => .ok (report, st, hasLag)
  | replica :: rest => do
    let lagB ← (dictGetD replica "replay_lag_bytes" (.num 0)).toRatE
    let lagMb := qDiv lagB (intToQ (1024 ^ 2))
    let report := report ++ [pgReplicaLine replica lagMb]
    if lagMb > 1024 then
      pgReplLoop report (updateStatus st .error) true rest
    else if lagMb > 100 then
      pgReplLoop report (updateStatus st .warning) true rest
    else
      pgReplLoop report st hasLag rest

/-- The get_replication_status branch of _analyze_and_report (lines 404-426),
including the header rewrite report[-len(data) - 1] = WARNING header. -/
def pgReplicationStatus (st : AgentState) (data : PyVal) :
    Except PyErr AgentState := do
  let report := st.report ++ ["### 🟡 INFO: Replication Status"]
  if !data.truthy then
    pure ⟨report ++ ["No active replicas found (normal for a standalone instance)."],
      st.status⟩
  else do
    let rows ← pyRows data
    let (report, newSt, hasLag) ← pgReplLoop report st.status false rows
    if hasLag then
      pure ⟨report.set (report.length - (rows.length + 1))
          "### 🟠 WARNING: Replication Lag Detected", newSt⟩
    else pure ⟨report, newSt⟩

/-- PostgresAgent._analyze_and_report (lines 99-1112), restricted to the
branches the claims exercise (skill failure, get_blocking_locks,
get_table_bloat, get_index_bloat, get_connection_usage,
get_replication_slots, get_replication_status); the remaining elif branches
of the source are outside the analysed claims and leave the state unchanged
here. -/
def analyzeResultPg (st : AgentState) (result : PyDict) : Except PyErr AgentState :=
  let skillV := dictGetD result "skill" (.str "unknown_skill")
  let statusV := dictGetD result "status" (.str "fail")
  let dataV := dictGetD result "data" (.list [])
  let notesV := dictGetD result "notes" (.str "")
  if !(pyEqStr statusV "success") then
    .ok ⟨st.report ++ pgSkillFailedLines skillV dataV, updateStatus st.status .error⟩
  else if pyEqStr skillV "get_blocking_locks" then pgBlockingLocks st dataV
  else if pyEqStr skillV "get_table_bloat" then pgBloat st true dataV
  else if pyEqStr skillV "get_index_bloat" then pgBloat st false dataV
  else if pyEqStr skillV "get_connection_usage" then pgConnectionUsage st dataV
  else if pyEqStr skillV "get_replication_slots" then
    pgReplicationSlots st dataV notesV (dictGet result "notes")
  else if pyEqStr skillV "get_replication_status" then pgReplicationStatus st dataV
  else .ok st

/-- Outcome of the subprocess.run call in PostgresAgent._run_skill; raised
covers any exception (line 85 catches them generically, including
TimeoutExpired) with its str(e) text. -/
inductive PgExec where
  | completed (stdout stderr : String) (returncode : ℤ)
  | raised (msg : String)

/-- PostgresAgent._run_skill (lines 40-90), with json.loads abstracted as an
oracle that yields either the parsed value or the JSONDecodeError text. -/
def runSkillPg (skillName : String) (exec : PgExec)
    (parse : String → Except String PyVal) : PyVal :=
  match exec with
  | .completed stdout stderr rc =>
    if rc ≠ 0 then
      if strContains stderr "does not exist" then
        .dict [("skill", .str skillName), ("status", .str "success"),
               ("data", .list []),
               ("notes", .str ("view or table does not exist: " ++ stderr))]
      else
        .dict [("skill", .str skillName), ("status", .str "fail"),
               ("data", .str ("Script execution failed with code " ++ toString rc ++
                 ": " ++ stderr))]
    else if strStrip stdout = "" then
      .dict [("skill", .str skillName), ("status", .str "success"),
             ("data", .list [])]
    else
      match parse stdout with
      | .ok v => v
      | .error e =>
        .dict [("skill", .str skillName), ("status", .str "fail"),
               ("data", .str ("Failed to parse JSON output: " ++ e ++
                 ". Raw output: " ++ stdout))]
  | .raised msg =>
    .dict [("skill", .str skillName), ("status", .str "fail"),
           ("data", .str ("An unexpected error occurred: " ++ msg))]

/-- The postgres agent entry point (lines 1212-1214) runs the checks without
inspecting report_status and without calling sys.exit, so the interpreter
exit code is 0 for every final report status. -/
def postgresMainExitCode (_finalStatus : Status) : Nat := 0

/-- One dict appended to PolarDBCheckAgent.issues or .warnings. -/
structure PolarFinding where
  type : String
  check : String
  message : String
  recommendation : String
deriving DecidableEq, Repr

/-- Outcome of the subprocess.run call in PolarDBCheckAgent.run_check, which
catches TimeoutExpired separately from other exceptions. -/
inductive PolarExec where
  | completed (stdout stderr : String) (returncode : ℤ)
  | timedOut
  | raised (msg : String)

/-- PolarDBCheckAgent.run_check (polardb_agent.py lines 66-95), with
json.loads abstracted as an oracle. The returncode of a completed process
is never inspected. -/
def runCheckPolar (checkName : String) (exec : PolarExec)
    (parse : String → Except String PyVal) : PyVal :=
  match exec with
  | .completed stdout stderr _rc =>
    let output := if strStrip stdout = "" then strStrip stderr else strStrip stdout
    match parse output with
    | .ok v => v
    | .error _ =>
      .dict [("skill", .str checkName), ("status", .str "unknown"),
             ("raw_output", .str output)]
  | .timedOut =>
    .dict [("skill", .str checkName), ("status", .str "timeout"),
           ("message", .str "Check timed out after 60 seconds")]
  | .raised msg =>
    .dict [("skill", .str checkName), ("status", .str "error"),
           ("message", .str msg)]

/-- The LogIndex analysis block of analyze_results (lines 197-221). -/
def polarLogindexRule (row : PyDict) :
    Except PyErr (List PolarFinding × List PolarFinding) := do
  let lagBytes ← (dictGetD row "lag_bytes" (.num 0)).toRatE
  let lagMbV := dictGetD row "lag_mb" (.num 0)
  if lagBytes > 1073741824 then
    pure ([⟨"critical", "get_logindex_status",
      "LogIndex replay lag is critical: " ++ pyStr lagMbV ++ "MB",
      "Check storage I/O performance and network bandwidth between compute and storage nodes"⟩],
      [])
  else if lagBytes > 104857600 then
    pure ([], [⟨"warning", "get_logindex_status",
      "LogIndex replay lag is elevated: " ++ pyStr lagMbV ++ "MB",
      "Monitor storage I/O performance"⟩])
  else pure ([], [])

/-- The connection usage analysis block of analyze_results (lines 231-256). -/
def polarConnUsageRule (row : PyDict) :
    Except PyErr (List PolarFinding × List PolarFinding) := do
  let currentV := dictGetD row "current_connections" (.num 0)
  let maxV := dictGetD row "max_connections" (.num 100)
  let maxQ ← maxV.toRatE
  let usagePct ←
    if maxQ > 0 then do
      let c ← currentV.toRatE
      pure (qMul (qDiv c maxQ) (intToQ 100))
    else pure (0 : ℚ)
  if usagePct > 95 then
    pure ([⟨"critical", "get_connection_usage",
      "Connection usage is critical: " ++ pyStr currentV ++ "/" ++ pyStr maxV ++
        " (" ++ formatRat usagePct 1 ++ "%)",
      "Increase max_connections or optimize connection pooling"⟩], [])
  else if usagePct > 80 then
    pure ([], [⟨"warning", "get_connection_usage",
      "Connection usage is high: " ++ pyStr currentV ++ "/" ++ pyStr maxV ++
        " (" ++ formatRat usagePct 1 ++ "%)",
      "Monitor connection growth and consider connection pooling"⟩])
  else pure ([], [])

/-- The cache hit rate analysis block of analyze_results (lines 259-273). -/
def polarCacheHitRule (row : PyDict) :
    Except PyErr (List PolarFinding × List PolarFinding) := do
  let hitV := dictGetD row "hit_ratio" (.num 100)
  let hit ← hitV.toRatE
  if hit < 99 then
    pure ([], [⟨"warning", "get_cache_hit_rate",
      "Cache hit rate is low: " ++ pyStr hitV ++ "%",
      "Increase shared_buffers or optimize queries"⟩])
  else pure ([], [])

/-- The long-running queries analysis block of analyze_results (276-290). -/
def polarLongQueriesRule (row : PyDict) :
    Except PyErr (List PolarFinding × List PolarFinding) := do
  let countV := dictGetD row "count" (.num 0)
  let c ← countV.toRatE
  if c > 0 then
    pure ([], [⟨"warning", "get_long_running_queries",
      "Found " ++ pyStr countV ++ " long-running queries (>5 minutes)",
      "Review and optimize slow queries"⟩])
  else pure ([], [])

/-- The replication status analysis block of analyze_results (293-317). -/
def polarReplicationRule (row : PyDict) :
    Except PyErr (List PolarFinding × List PolarFinding) := do
  let lagBytes ← (dictGetD row "replication_lag_bytes" (.num 0)).toRatE
  let lagMb := qDiv (qDiv lagBytes (intToQ 1024)) (intToQ 1024)
  if lagBytes > 1073741824 then
    pure ([⟨"critical", "get_replication_status",
      "Replication lag is critical: " ++ formatRat lagMb 1 ++ "MB",
      "Check storage I/O and network performance"⟩], [])
  else if lagBytes > 104857600 then
    pure ([], [⟨"warning", "get_replication_status",
      "Replication lag is elevated: " ++ formatRat lagMb 1 ++ "MB",
      "Monitor replication health"⟩])
  else pure ([], [])

/-- The WAL archiver analysis block of analyze_results (lines 320-334). -/
def polarWalArchiverRule (row : PyDict) :
    Except PyErr (List PolarFinding × List PolarFinding) := do
  let failedV := dictGetD row "failed_archives" (.num 0)
  let f ← failedV.toRatE
  if f > 0 then
    pure ([⟨"critical", "get_wal_archiver_status",
      "WAL archiving has " ++ pyStr failedV ++ " failures",
      "Check archive_command configuration and storage availability"⟩], [])
  else pure ([], [])

/-- The guard repeated before every analysis block:
data.get("status") == "success" and data.get("data") is truthy. -/
def polarSuccessGuard (r : PyDict) : Bool :=
  (match dictGet r "status" with
   | some v => pyEqStr v "success"
   | none => false) &&
  ((dictGet r "data").getD .pynone).truthy

/-- data["data"][0] if data["data"] else {}, as written in every block. -/
def polarFirstRow (r : PyDict) : Except PyErr PyDict := do
  let rows ← pyRows ((dictGet r "data").getD .pynone)
  pure (rows.headD [])

/-- One guarded analysis block of PolarDBCheckAgent.analyze_results
(lines 186-334). Results whose status is not success, or whose data is
falsy, contribute no findings; the get_polar_node_type and get_pfs_usage
blocks record no findings either, and checks outside the analysed set are
never inspected. -/
def polarCheckDelta (check : String) (r : PyDict) :
    Except PyErr (List PolarFinding × List PolarFinding) :=
  if polarSuccessGuard r then
    if check = "get_logindex_status" then do polarLogindexRule (← polarFirstRow r)
    else if check = "get_connection_usage" then do polarConnUsageRule (← polarFirstRow r)
    else if check = "get_cache_hit_rate" then do polarCacheHitRule (← polarFirstRow r)
    else if check = "get_long_running_queries" then do
      polarLongQueriesRule (← polarFirstRow r)
    else if check = "get_replication_status" then do
      polarReplicationRule (← polarFirstRow r)
    else if check = "get_wal_archiver_status" then do
      polarWalArchiverRule (← polarFirstRow r)
    else .ok ([], [])
  else .ok ([], [])

/-- The guarded blocks of analyze_results in source order. -/
def polarAnalyzedChecks : List String :=
  ["get_polar_node_type", "get_logindex_status", "get_pfs_usage",
   "get_connection_usage", "get_cache_hit_rate", "get_long_running_queries",
   "get_replication_status", "get_wal_archiver_status"]

/-- PolarDBCheckAgent.analyze_results over the collected results mapping:
accumulates the issues and warnings lists in block order. -/
def polarAnalyzeResults (results : List (String × PyDict)) :
    Except PyErr (List PolarFinding × List PolarFinding) :=
  polarAnalyzedChecks.foldlM
    (fun acc c =>
      match List.lookup c results with
      | none => pure acc
      | some r => do
        let (i, w) ← polarCheckDelta c r
        pure (acc.1 ++ i, acc.2 ++ w))
    ([], [])

/-- Overall status banner of PolarDBCheckAgent.generate_report (350-355):
CRITICAL (error) when issues exist, else WARNING when warnings exist, else
HEALTHY (ok). -/
def polarOverallStatus (issues warnings : List PolarFinding) : Status :=
  if !issues.isEmpty then .error
  else if !warnings.isEmpty then .warning
  else .ok

/-- PolarDBCheckAgent.run (line 574) returns len(self.issues) == 0. -/
def polarRunSuccess (issues : List PolarFinding) : Bool :=
  issues.length == 0

/-- main (line 600): sys.exit(0 if success else 1). -/
def polarExitCode (success : Bool) : Nat :=
  if success then 0 else 1

/-- Whether an Except value is a success. -/
def isOkE {α : Type} : Except PyErr α → Bool
  | .ok _ => true
  | .error _ => false

/-- A bloat row whose three numeric fields convert with float() (they are
absent, numeric, boolean, or a parsable decimal string). -/
def BloatRowOk (row : PyDict) : Prop :=
  isOkE (pyFloat (dictGetD row "bloat_percentage" (.num 0))) = true ∧
  isOkE (pyFloat (dictGetD row "wasted_bytes" (.num 0))) = true ∧
  isOkE (pyFloat (dictGetD row "total_bytes" (.num 0))) = true

/-- A below-threshold bloat row used by the ten-row scenario. -/
def bloatRowLow (i : Nat) : PyVal :=
  .dict [("schemaname", .str "public"), ("tablename", .str ("t" ++ toString i)),
         ("bloat_percentage", .num 5), ("wasted_bytes", .num 10),
         ("total_bytes", .num 1000)]

/-- The seventh row of the scenario: bloat_percentage 25, wasted_bytes
150 MiB, both above the warning thresholds. -/
def bloatRowBad : PyVal :=
  .dict [("schemaname", .str "public"), ("tablename", .str "t7"),
         ("bloat_percentage", .num 25), ("wasted_bytes", .num (intToQ (150 * 1024 * 1024))),
         ("total_bytes", .num (intToQ (600 * 1024 * 1024)))]

/-- Ten bloat rows where only the seventh exceeds both thresholds. -/
def bloatData10 : PyVal :=
  .list [bloatRowLow 1, bloatRowLow 2, bloatRowLow 3, bloatRowLow 4, bloatRowLow 5,
         bloatRowLow 6, bloatRowBad, bloatRowLow 8, bloatRowLow 9, bloatRowLow 10]

/-- The get_connection_usage result of the spec scenario: one data row with
current_connections 96 and max_connections 100. -/
def connUsage96Result : PyDict :=
  [("skill", .str "get_connection_usage"), ("status", .str "success"),
   ("data", .list [.dict [("current_connections", .num 96),
     ("max_connections", .num 100)]])]

/-- The critical finding that the polardb agent files for the 96 percent
connection usage scenario. -/
def connUsage96Finding : PolarFinding :=
  ⟨"critical", "get_connection_usage", "Connection usage is critical: 96/100 (96.0%)",
   "Increase max_connections or optimize connection pooling"⟩

/-- The warning finding filed for a 97 percent cache hit rate. -/
def cacheHit97Finding : PolarFinding :=
  ⟨"warning", "get_cache_hit_rate", "Cache hit rate is low: 97%",
   "Increase shared_buffers or optimize queries"⟩

-- Helper lemmas about the severity join and list manipulation.

theorem statusMax_ok_left : ∀ a : Status, statusMax Status.ok a = a := by decide

theorem updateStatus_eq_statusMax : ∀ c n, updateStatus c n = statusMax c n := by decide

theorem statusMax_left_comm :
    ∀ x y t : Status, statusMax x (statusMax y t) = statusMax y (statusMax x t) := by decide

theorem statusMax_pull :
    ∀ x y z : Status, statusMax (updateStatus x y) z = statusMax x (statusMax y z) := by
  decide

theorem foldl_updateStatus (l : List Status) :
    ∀ a : Status, l.foldl updateStatus a = statusMax a (listJoin l) := by
  induction l with
  | nil => intro a; cases a <;> rfl
  | cons b t ih =>
    intro a
    simp only [List.foldl, listJoin, List.foldr] at *
    rw [ih (updateStatus a b)]
    exact statusMax_pull a b (listJoin t)

theorem listJoin_perm {l l' : List Status} (h : l.Perm l') : listJoin l = listJoin l' := by
  induction h with
  | nil => rfl
  | cons x _ ih => simp only [listJoin, List.foldr] at *; rw [ih]
  | swap x y t => exact statusMax_left_comm _ _ _
  | trans _ _ ih1 ih2 => rw [ih1, ih2]

theorem set_append_two (l : List String) (a b c : String) :
    (l ++ [a, b]).set l.length c = l ++ [c, b] := by
  induction l with
  | nil => rfl
  | cons x t ih =>
    simp only [List.cons_append, List.set, List.length_cons]
    exact congrArg (List.cons x) ih

theorem intToQ_eq (n : ℤ) : intToQ n = (n : ℚ) := by
  rw [intToQ, Rat.divInt_eq_div]
  simp

theorem qMul_eq (a b : ℚ) : qMul a b = a * b := by
  rw [qMul, Rat.divInt_eq_div]
  push_cast
  conv_rhs => rw [← Rat.num_div_den a, ← Rat.num_div_den b]
  rw [div_mul_div_comm]

theorem qDiv_eq (a b : ℚ) : qDiv a b = a / b := by
  rcases eq_or_ne b 0 with hb | hb
  · subst hb
    simp [qDiv, Rat.divInt_eq_div]
  · have hbn : b.num ≠ 0 := Rat.num_ne_zero.mpr hb
    have ha : ((a.den : ℚ)) ≠ 0 := Nat.cast_ne_zero.mpr a.den_nz
    have hbd : ((b.den : ℚ)) ≠ 0 := Nat.cast_ne_zero.mpr b.den_nz
    have hbq : ((b.num : ℚ)) ≠ 0 := Int.cast_ne_zero.mpr hbn
    have hna : (a.num : ℚ) = a * a.den := (div_eq_iff ha).mp (Rat.num_div_den a)
    have hnb : (b.num : ℚ) = b * b.den := (div_eq_iff hbd).mp (Rat.num_div_den b)
    rw [qDiv, Rat.divInt_eq_div]
    push_cast
    rw [div_eq_div_iff (mul_ne_zero ha hbq) hb, hna, hnb]
    ring

/-- C2: _update_status is a monotone fold by max over the total order
OK < WARNING < ERROR: it coincides with the join, never decreases the
stored status, the join is commutative, associative and idempotent, and
folding the finding severities from OK yields their join independently of
processing order. -/
theorem update_status_is_monotone_max_fold :
    (∀ c n, updateStatus c n = statusMax c n) ∧
    (∀ c n, c.rank ≤ (updateStatus c n).rank) ∧
    (∀ a b, statusMax a b = statusMax b a) ∧
    (∀ a b c, statusMax (statusMax a b) c = statusMax a (statusMax b c)) ∧
    (∀ a, statusMax a a = a) ∧
    (∀ l, foldStatus l = listJoin l) ∧
    (∀ l l', l.Perm l' → foldStatus l = foldStatus l') := by
  have hfold : ∀ l, foldStatus l = listJoin l := by
    intro l
    rw [foldStatus, foldl_updateStatus l Status.ok, statusMax_ok_left]
  refine ⟨updateStatus_eq_statusMax, by decide, by decide, by decide, by decide,
    hfold, ?_⟩
  intro l l' h
  rw [hfold, hfold]
  exact listJoin_perm h

/-- Witness for C2: a concrete reordering of findings yields the same
overall severity. -/
theorem update_status_is_monotone_max_fold_witness :
    foldStatus [Status.error, Status.ok, Status.warning] =
      foldStatus [Status.warning, Status.error, Status.ok] :=
  update_status_is_monotone_max_fold.2.2.2.2.2.2
    [Status.error, Status.ok, Status.warning]
    [Status.warning, Status.error, Status.ok] (by decide)

/-- C1: code bug. On the ten-row bloat input whose seventh row has
bloat_percentage 25 and wasted_bytes 150 MiB, the bloat branch rewrites
the line at index len(report) - len(data) - 2, which is the markdown
column-header row one position after the block header, not the header
itself: the emitted block header is still the provisional INFO header and
the WARNING text lands on the column-header row, although the overall
status does escalate to WARNING. -/
theorem bloat_warning_rewrite_misses_info_header :
    (pgBloat ⟨[], Status.ok⟩ true bloatData10).map
        (fun st => (st.report.take 3, st.status, st.report.length)) =
      .ok (["### 🟡 INFO: Top 10 Bloated Tables",
            "### 🟠 WARNING: Significant Table Bloat Detected",
            "|---|---|---|---|---|"], Status.warning, 13) := rfl

/-- C8: code bug. With empty data and empty notes the block renders the
healthy line with no findings (first conjunct, as the claim states); but
_run_skill synthesizes notes of the form "view or table does not exist:
stderr" (second conjunct), which fails the exact equality test at line 373,
so feeding that synthesized result back renders the healthy line instead of
the not-applicable line (third conjunct); only a note exactly equal to
"view or table does not exist" reaches the not-applicable branch (fourth
conjunct). -/
theorem replication_slots_note_equality_mismatch :
    ((analyzeResultPg ⟨[], Status.ok⟩
        [("skill", .str "get_replication_slots"), ("status", .str "success"),
         ("data", .list []), ("notes", .str "")]).map
        (fun st => (st.report, st.status)) =
      .ok (["### 🟡 INFO: Replication Slots Status", "No replication slots found."],
        Status.ok)) ∧
    (runSkillPg "get_replication_slots"
        (.completed "" "ERROR:  view pg_replication_slots does not exist" 1)
        (fun _ => .error "unused") =
      .dict [("skill", .str "get_replication_slots"), ("status", .str "success"),
        ("data", .list []),
        ("notes",
         .str "view or table does not exist: ERROR:  view pg_replication_slots does not exist")]) ∧
    ((analyzeResultPg ⟨[], Status.ok⟩
        [("skill", .str "get_replication_slots"), ("status", .str "success"),
         ("data", .list []),
         ("notes",
          .str "view or table does not exist: ERROR:  view pg_replication_slots does not exist")]).map
        (fun st => (st.report, st.status)) =
      .ok (["### 🟡 INFO: Replication Slots Status", "No replication slots found."],
        Status.ok)) ∧
    ((analyzeResultPg ⟨[], Status.ok⟩
        [("skill", .str "get_replication_slots"), ("status", .str "success"),
         ("data", .list []), ("notes", .str "view or table does not exist")]).map
        (fun st => (st.report, st.status)) =
      .ok (["### 🟡 INFO: Replication Slots Status",
            "Replication slots are not applicable or view does not exist."],
        Status.ok)) :=
  ⟨rfl, rfl, rfl, rfl⟩

/-- C3: counterexample. A polardb check result with status timeout (exactly
the dict run_check synthesizes, second conjunct) produces zero findings
rather than one ERROR finding: analyze_results skips every non-success
result, so the overall status stays HEALTHY and the process exits 0,
contradicting the claim for the polardb agent. -/
theorem polar_timeout_produces_no_finding :
    polarAnalyzeResults
        [("get_connection_usage",
          [("skill", PyVal.str "get_connection_usage"),
           ("status", PyVal.str "timeout"),
           ("message", PyVal.str "Check timed out after 60 seconds")])] =
      .ok ([], []) ∧
    runCheckPolar "get_connection_usage" .timedOut (fun _ => .error "unused") =
      .dict [("skill", .str "get_connection_usage"), ("status", .str "timeout"),
             ("message", .str "Check timed out after 60 seconds")] ∧
    polarOverallStatus [] [] = Status.ok ∧
    polarExitCode (polarRunSuccess []) = 0 :=
  ⟨rfl, rfl, rfl, rfl⟩

/-- C3: amended claim. For the postgres agent every result with status
other than success bypasses all skill rules, appends exactly the two
skill-failed lines carrying the raw data payload, and escalates the
overall status to ERROR; for the polardb agent such results also bypass
the business rules but contribute no finding and no escalation. -/
theorem non_success_results_error_pg_silent_polar :
    (∀ (st : AgentState) (result : PyDict),
      pyEqStr (dictGetD result "status" (.str "fail")) "success" = false →
      analyzeResultPg st result =
        .ok ⟨st.report ++
            pgSkillFailedLines (dictGetD result "skill" (.str "unknown_skill"))
              (dictGetD result "data" (.list [])),
          updateStatus st.status .error⟩) ∧
    (∀ (check : String) (r : PyDict),
      (match dictGet r "status" with
       | some v => pyEqStr v "success"
       | none => false) = false →
      polarCheckDelta check r = .ok ([], [])) := by
  constructor
  · intro st result h
    simp only [analyzeResultPg, h, Bool.not_false, if_true]
  · intro check r h
    have hg : polarSuccessGuard r = false := by
      simp only [polarSuccessGuard, h, Bool.false_and]
    simp only [polarCheckDelta, hg, Bool.false_eq_true, if_false]

/-- Witness for C3: a concrete failed result on each agent. -/
theorem non_success_results_error_pg_silent_polar_witness :
    analyzeResultPg ⟨[], Status.ok⟩
        [("skill", PyVal.str "get_top_sql_by_time"), ("status", PyVal.str "fail"),
         ("data", PyVal.str "boom")] =
      .ok ⟨["### ❌ Skill Failed: `get_top_sql_by_time`", "Error details: `boom`"],
        Status.error⟩ ∧
    polarCheckDelta "get_cache_hit_rate" [("status", PyVal.str "fail")] = .ok ([], []) :=
  ⟨non_success_results_error_pg_silent_polar.1 ⟨[], Status.ok⟩ _ (by decide),
   non_success_results_error_pg_silent_polar.2 "get_cache_hit_rate" _ (by decide)⟩

/-- C4: counterexample. A polardb run whose only finding is a warning has
overall status WARNING yet exits 0, because run returns issues == 0 and
main exits 0 on that, contradicting the claim that a WARNING run exits with
a non-zero code. -/
theorem polar_warning_run_exits_zero :
    polarAnalyzeResults
        [("get_cache_hit_rate",
          [("skill", PyVal.str "get_cache_hit_rate"), ("status", PyVal.str "success"),
           ("data", PyVal.list [.dict [("hit_ratio", PyVal.num 97)]])])] =
      .ok ([], [cacheHit97Finding]) ∧
    polarOverallStatus [] [cacheHit97Finding] = Status.warning ∧
    polarExitCode (polarRunSuccess []) = 0 :=
  ⟨rfl, rfl, rfl⟩

/-- C4: amended claim. The polardb agent exits 0 iff it recorded no
critical issue, i.e. iff the overall status is not CRITICAL: a
warnings-only run (overall WARNING) still exits 0. The postgres agent
entry point never calls sys.exit, so its exit code is 0 for every final
status. -/
theorem exit_code_zero_iff_no_critical_issue :
    (∀ (issues warnings : List PolarFinding),
      (polarExitCode (polarRunSuccess issues) = 0 ↔
        polarOverallStatus issues warnings ≠ Status.error)) ∧
    (∀ s : Status, postgresMainExitCode s = 0) := by
  constructor
  · intro issues warnings
    cases issues with
    | nil =>
      simp only [polarExitCode, polarRunSuccess, polarOverallStatus, List.length_nil,
        List.isEmpty_nil, Bool.not_true, beq_self_eq_true, if_true]
      constructor
      · intro _
        cases h : warnings.isEmpty <;> simp [h]
      · intro _
        trivial
    | cons i t =>
      simp [polarExitCode, polarRunSuccess, polarOverallStatus]
  · intro s
    rfl

/-- Bind on a successful Except value reduces to the continuation. -/
theorem okBind {α β : Type} (a : α) (f : α → Except PyErr β) :
    (Except.ok a >>= f) = f a := rfl

/-- pure on Except is Except.ok. -/
theorem pureOk {α : Type} (a : α) : (pure a : Except PyErr α) = Except.ok a := rfl

/-- Setting the second-to-last element of l ++ [a, b] replaces a. -/
theorem set_two_shape (l : List String) (a b c : String) :
    ((l ++ [a]) ++ [b]).set (((l ++ [a]) ++ [b]).length - 2) c = l ++ [c, b] := by
  rw [List.append_assoc, List.singleton_append]
  have h2 : (l ++ [a, b]).length - 2 = l.length := by simp [List.length_append]
  rw [h2, set_append_two]

/-- The get_replication_status branch on a single replica row, expressed as
an if-chain over the replay lag in MB: the header is rewritten to the same
WARNING text in both escalation branches. -/
theorem pgReplicationStatus_single (st : AgentState) (row : PyDict) (lagBytes : ℚ)
    (hget : dictGetD row "replay_lag_bytes" (.num 0) = .num lagBytes) :
    pgReplicationStatus st (.list [.dict row]) =
      (if qDiv lagBytes (intToQ (1024 ^ 2)) > 1024 then
        .ok ⟨st.report ++ ["### 🟠 WARNING: Replication Lag Detected",
            pgReplicaLine row (qDiv lagBytes (intToQ (1024 ^ 2)))],
          updateStatus st.status .error⟩
      else if qDiv lagBytes (intToQ (1024 ^ 2)) > 100 then
        .ok ⟨st.report ++ ["### 🟠 WARNING: Replication Lag Detected",
            pgReplicaLine row (qDiv lagBytes (intToQ (1024 ^ 2)))],
          updateStatus st.status .warning⟩
      else
        .ok ⟨st.report ++ ["### 🟡 INFO: Replication Status",
            pgReplicaLine row (qDiv lagBytes (intToQ (1024 ^ 2)))], st.status⟩) := by
  have hrows : pyRows (.list [.dict row]) = .ok [row] := rfl
  simp only [pgReplicationStatus, hrows, okBind, pgReplLoop, hget, PyVal.toRatE,
    PyVal.truthy, List.isEmpty_cons, Bool.not_true, Bool.not_false,
    Bool.false_eq_true, if_false]
  split_ifs with h1 h2
  · show Except.ok (AgentState.mk
        (((st.report ++ ["### 🟡 INFO: Replication Status"]) ++
          [pgReplicaLine row (qDiv lagBytes (intToQ (1024 ^ 2)))]).set
          (((st.report ++ ["### 🟡 INFO: Replication Status"]) ++
            [pgReplicaLine row (qDiv lagBytes (intToQ (1024 ^ 2)))]).length - 2)
          "### 🟠 WARNING: Replication Lag Detected")
        (updateStatus st.status Status.error)) = _
    rw [set_two_shape]
  · show Except.ok (AgentState.mk
        (((st.report ++ ["### 🟡 INFO: Replication Status"]) ++
          [pgReplicaLine row (qDiv lagBytes (intToQ (1024 ^ 2)))]).set
          (((st.report ++ ["### 🟡 INFO: Replication Status"]) ++
            [pgReplicaLine row (qDiv lagBytes (intToQ (1024 ^ 2)))]).length - 2)
          "### 🟠 WARNING: Replication Lag Detected")
        (updateStatus st.status Status.warning)) = _
    rw [set_two_shape]
  · show Except.ok (AgentState.mk
        ((st.report ++ ["### 🟡 INFO: Replication Status"]) ++
          [pgReplicaLine row (qDiv lagBytes (intToQ (1024 ^ 2)))])
        st.status) = _
    rw [List.append_assoc, List.singleton_append]

/-- The polardb replication block on a single row as an if-chain over
replication_lag_bytes. -/
theorem polarReplicationRule_num (lagBytes : ℚ) :
    polarReplicationRule [("replication_lag_bytes", .num lagBytes)] =
      (if lagBytes > 1073741824 then
        .ok ([⟨"critical", "get_replication_status",
          "Replication lag is critical: " ++
            formatRat (qDiv (qDiv lagBytes (intToQ 1024)) (intToQ 1024)) 1 ++ "MB",
          "Check storage I/O and network performance"⟩], [])
      else if lagBytes > 104857600 then
        .ok ([], [⟨"warning", "get_replication_status",
          "Replication lag is elevated: " ++
            formatRat (qDiv (qDiv lagBytes (intToQ 1024)) (intToQ 1024)) 1 ++ "MB",
          "Monitor replication health"⟩])
      else .ok ([], [])) := rfl

/-- C5: counterexample. A replica with 2 GiB of replay lag escalates the
overall status to ERROR, but the rewritten block header is the WARNING
header "### 🟠 WARNING: Replication Lag Detected", a lower severity than
the block's own worst finding — refuting the claim that the rewritten
header reflects severity ERROR. -/
theorem replication_error_lag_warning_header :
    (pgReplicationStatus ⟨[], Status.ok⟩
        (.list [.dict [("client_addr", .str "10.0.0.1"), ("state", .str "streaming"),
          ("replay_lag_bytes", .num (intToQ (2 * 1024 ^ 3)))]])).map
        (fun st => (st.report, st.status)) =
      .ok (["### 🟠 WARNING: Replication Lag Detected",
            "- **Replica:** `10.0.0.1`, **State:** `streaming`, **Replay Lag:** `2048.00 MB`"],
        Status.error) := rfl

/-- C5: amended claim. For get_replication_status with one replica row:
lag above 1 GiB escalates overall severity to ERROR and lag in
(100 MiB, 1 GiB] escalates to WARNING, and in both cases the INFO header is
rewritten in place — but always to the WARNING header, even when the
severity is ERROR; the polardb agent classifies the same thresholds into a
critical issue and a warning respectively. -/
theorem replication_lag_thresholds :
    (∀ (st : AgentState) (row : PyDict) (lagBytes : ℚ),
      dictGetD row "replay_lag_bytes" (.num 0) = .num lagBytes →
      (lagBytes > 1024 ^ 3 →
        pgReplicationStatus st (.list [.dict row]) =
          .ok ⟨st.report ++ ["### 🟠 WARNING: Replication Lag Detected",
              pgReplicaLine row (qDiv lagBytes (intToQ (1024 ^ 2)))],
            updateStatus st.status .error⟩) ∧
      (100 * 1024 ^ 2 < lagBytes ∧ lagBytes ≤ 1024 ^ 3 →
        pgReplicationStatus st (.list [.dict row]) =
          .ok ⟨st.report ++ ["### 🟠 WARNING: Replication Lag Detected",
              pgReplicaLine row (qDiv lagBytes (intToQ (1024 ^ 2)))],
            updateStatus st.status .warning⟩) ∧
      (lagBytes ≤ 100 * 1024 ^ 2 →
        pgReplicationStatus st (.list [.dict row]) =
          .ok ⟨st.report ++ ["### 🟡 INFO: Replication Status",
              pgReplicaLine row (qDiv lagBytes (intToQ (1024 ^ 2)))], st.status⟩)) ∧
    (∀ lagBytes : ℚ,
      (lagBytes > 1073741824 →
        polarReplicationRule [("replication_lag_bytes", .num lagBytes)] =
          .ok ([⟨"critical", "get_replication_status",
            "Replication lag is critical: " ++
              formatRat (qDiv (qDiv lagBytes (intToQ 1024)) (intToQ 1024)) 1 ++ "MB",
            "Check storage I/O and network performance"⟩], [])) ∧
      (104857600 < lagBytes ∧ lagBytes ≤ 1073741824 →
        polarReplicationRule [("replication_lag_bytes", .num lagBytes)] =
          .ok ([], [⟨"warning", "get_replication_status",
            "Replication lag is elevated: " ++
              formatRat (qDiv (qDiv lagBytes (intToQ 1024)) (intToQ 1024)) 1 ++ "MB",
            "Monitor replication health"⟩])) ∧
      (lagBytes ≤ 104857600 →
        polarReplicationRule [("replication_lag_bytes", .num lagBytes)] =
          .ok ([], []))) := by
  constructor
  · intro st row lagBytes hget
    have hconv : ∀ t : ℚ, (qDiv lagBytes (intToQ (1024 ^ 2)) > t ↔
        t * 1024 ^ 2 < lagBytes) := by
      intro t
      rw [qDiv_eq, intToQ_eq]
      push_cast
      rw [gt_iff_lt, lt_div_iff₀ (by norm_num)]
      norm_num
    refine ⟨?_, ?_, ?_⟩
    · intro h
      rw [pgReplicationStatus_single st row lagBytes hget,
        if_pos ((hconv 1024).mpr (by norm_num at h ⊢; linarith))]
    · intro h
      have h1 : ¬ qDiv lagBytes (intToQ (1024 ^ 2)) > 1024 := by
        rw [hconv 1024]
        norm_num at h ⊢
        linarith [h.2]
      have h2 : qDiv lagBytes (intToQ (1024 ^ 2)) > 100 :=
        (hconv 100).mpr (by norm_num at h ⊢; linarith [h.1])
      rw [pgReplicationStatus_single st row lagBytes hget, if_neg h1, if_pos h2]
    · intro h
      have h1 : ¬ qDiv lagBytes (intToQ (1024 ^ 2)) > 1024 := by
        rw [hconv 1024]
        norm_num at h ⊢
        linarith
      have h2 : ¬ qDiv lagBytes (intToQ (1024 ^ 2)) > 100 := by
        rw [hconv 100]
        norm_num at h ⊢
        linarith
      rw [pgReplicationStatus_single st row lagBytes hget, if_neg h1, if_neg h2]
  · intro lagBytes
    refine ⟨?_, ?_, ?_⟩
    · intro h
      rw [polarReplicationRule_num, if_pos h]
    · intro h
      rw [polarReplicationRule_num, if_neg (by linarith [h.2]), if_pos h.1]
    · intro h
      rw [polarReplicationRule_num, if_neg (by linarith), if_neg (by linarith)]

/-- Witness for C5: a 2 GiB replica lag on the postgres agent and a
200 MiB lag on the polardb agent. -/
theorem replication_lag_thresholds_witness :
    pgReplicationStatus ⟨[], Status.ok⟩
        (.list [.dict [("replay_lag_bytes", .num 2147483648)]]) =
      .ok ⟨["### 🟠 WARNING: Replication Lag Detected",
          "- **Replica:** `N/A`, **State:** `None`, **Replay Lag:** `2048.00 MB`"],
        Status.error⟩ ∧
    polarReplicationRule [("replication_lag_bytes", .num 209715200)] =
      .ok ([], [⟨"warning", "get_replication_status",
        "Replication lag is elevated: 200.0MB", "Monitor replication health"⟩]) :=
  ⟨((replication_lag_thresholds.1 ⟨[], Status.ok⟩
      [("replay_lag_bytes", .num 2147483648)] 2147483648 rfl).1 (by norm_num)),
   ((replication_lag_thresholds.2 209715200).2.1 (by norm_num))⟩

/-- A successful Except value carries a payload. -/
theorem isOkE_exists {α : Type} {e : Except PyErr α} (h : isOkE e = true) :
    ∃ a, e = .ok a := by
  cases e with
  | ok a => exact ⟨a, rfl⟩
  | error _ => simp [isOkE] at h

/-- A list of dict rows is read back as those rows. -/
theorem pyRows_map_dict (rows : List PyDict) :
    pyRows (.list (rows.map PyVal.dict)) = .ok rows := by
  induction rows with
  | nil => rfl
  | cons r rs ih =>
    simp only [pyRows, List.map_cons, List.mapM_cons, okBind, pureOk] at *
    rw [ih]
    rfl

/-- Bind preserves success when both sides succeed. -/
theorem bind_isOk {α β : Type} {e : Except PyErr α} (f : α → Except PyErr β)
    (he : isOkE e = true) (hf : ∀ a, isOkE (f a) = true) :
    isOkE (e >>= f) = true := by
  obtain ⟨a, ha⟩ := isOkE_exists he
  rw [ha, okBind]
  exact hf a

/-- The bloat row loop succeeds whenever every row's three numeric fields
convert with float(). -/
theorem pgBloatLoop_ok (rows : List PyDict) :
    ∀ (lines : List String) (hasW : Bool), (∀ row ∈ rows, BloatRowOk row) →
      isOkE (pgBloatLoop lines hasW rows) = true := by
  induction rows with
  | nil => intro lines hasW _; rfl
  | cons r rs ih =>
    intro lines hasW hall
    have hr := hall r (List.mem_cons_self r rs)
    obtain ⟨b, hb⟩ := isOkE_exists hr.1
    obtain ⟨w, hw⟩ := isOkE_exists hr.2.1
    obtain ⟨t, ht⟩ := isOkE_exists hr.2.2
    simp only [pgBloatLoop, hb, hw, ht, okBind]
    exact ih _ _ (fun row hm => hall row (List.mem_cons_of_mem r hm))

/-- The bloat branch is total over rows whose numeric fields convert:
every such input produces a block rather than an exception. -/
theorem pgBloat_total (st : AgentState) (isTable : Bool) (rows : List PyDict)
    (h : ∀ row ∈ rows, BloatRowOk row) :
    isOkE (pgBloat st isTable (.list (rows.map PyVal.dict))) = true := by
  cases rows with
  | nil => cases isTable <;> rfl
  | cons r rs =>
    have htr : (PyVal.list ((r :: rs).map PyVal.dict)).truthy = true := rfl
    simp only [pgBloat, htr, pyRows_map_dict, okBind, Bool.not_true,
      Bool.false_eq_true, if_false]
    apply bind_isOk _ (pgBloatLoop_ok (r :: rs) _ false h)
    intro p
    rcases p with ⟨rep, hw⟩
    cases hw <;> rfl

/-- C6: counterexample. The get_connection_usage rule indexes
data[0]["max_connections"] directly, so a success result whose single row
lacks that field makes classification raise KeyError instead of rendering
an N/A placeholder — the classifier is not exception-free. -/
theorem connection_usage_missing_field_raises :
    analyzeResultPg ⟨[], Status.ok⟩
        [("skill", PyVal.str "get_connection_usage"), ("status", PyVal.str "success"),
         ("data", PyVal.list [.dict [("used_connections", PyVal.num 96)]])] =
      .error (.keyError "max_connections") := rfl

/-- C6: amended claim. Rules that read fields through defaulted .get
lookups are total: the bloat rules produce their block for every row list
whose numeric fields convert with float(), and a row with no fields at all
renders with N/A placeholders (second conjunct). But rules that subscript
fields directly are not total: get_connection_usage (counterexample) and
get_blocking_locks (third conjunct) raise KeyError on a missing field. -/
theorem classification_totality_split :
    (∀ (st : AgentState) (isTable : Bool) (rows : List PyDict),
      (∀ row ∈ rows, BloatRowOk row) →
      isOkE (pgBloat st isTable (.list (rows.map PyVal.dict))) = true) ∧
    ((pgBloat ⟨[], Status.ok⟩ true (.list [.dict []])).map (fun s => s.report) =
      .ok ["### 🟡 INFO: Top 10 Bloated Tables",
           "| Schema | Table Name | Total Size | Bloat % | Wasted Space |",
           "|---|---|---|---|---|",
           "| N/A | `N/A` | 0.00 bytes | 0.00% | 0.00 bytes |"]) ∧
    (analyzeResultPg ⟨[], Status.ok⟩
        [("skill", PyVal.str "get_blocking_locks"), ("status", PyVal.str "success"),
         ("data", PyVal.list [.dict [("locktype", PyVal.str "relation")]])] =
      .error (.keyError "waiting_pid")) :=
  ⟨fun st isTable rows h => pgBloat_total st isTable rows h, rfl, rfl⟩

/-- Witness for C6: the bloat rule succeeds on a one-row list carrying
only bloat_percentage. -/
theorem classification_totality_split_witness :
    isOkE (pgBloat ⟨[], Status.ok⟩ true
        (.list (([[("bloat_percentage", PyVal.num 25)]] : List PyDict).map PyVal.dict))) =
      true :=
  classification_totality_split.1 ⟨[], Status.ok⟩ true
    [[("bloat_percentage", PyVal.num 25)]]
    (by
      intro row hm
      simp only [List.mem_singleton] at hm
      subst hm
      exact ⟨rfl, rfl, rfl⟩)

/-- The polardb connection-usage block on a numeric row with positive
max_connections, as an if-chain over the usage percentage. -/
theorem polarConnUsageRule_num (current maxc : ℚ) (h : maxc > 0) :
    polarConnUsageRule
        [("current_connections", .num current), ("max_connections", .num maxc)] =
      (if qMul (qDiv current maxc) (intToQ 100) > 95 then
        .ok ([⟨"critical", "get_connection_usage",
          "Connection usage is critical: " ++ ratPyStr current ++ "/" ++
            ratPyStr maxc ++ " (" ++
            formatRat (qMul (qDiv current maxc) (intToQ 100)) 1 ++ "%)",
          "Increase max_connections or optimize connection pooling"⟩], [])
      else if qMul (qDiv current maxc) (intToQ 100) > 80 then
        .ok ([], [⟨"warning", "get_connection_usage",
          "Connection usage is high: " ++ ratPyStr current ++ "/" ++
            ratPyStr maxc ++ " (" ++
            formatRat (qMul (qDiv current maxc) (intToQ 100)) 1 ++ "%)",
          "Monitor connection growth and consider connection pooling"⟩])
      else .ok ([], [])) := by
  have h1 : dictGetD [("current_connections", PyVal.num current),
      ("max_connections", PyVal.num maxc)] "max_connections" (PyVal.num 100) =
      PyVal.num maxc := rfl
  have h2 : dictGetD [("current_connections", PyVal.num current),
      ("max_connections", PyVal.num maxc)] "current_connections" (PyVal.num 0) =
      PyVal.num current := rfl
  simp only [polarConnUsageRule, h1, h2, PyVal.toRatE, okBind]
  rw [if_pos h]
  simp only [okBind, pureOk]
  rfl

/-- The postgres connection-usage branch on a single numeric row with a
nonzero max_connections, as an if-chain over the usage percentage. -/
theorem pgConnectionUsage_num (st : AgentState) (used maxc : ℚ) (h : maxc ≠ 0) :
    pgConnectionUsage st
        (.list [.dict [("used_connections", .num used),
          ("max_connections", .num maxc)]]) =
      (if qMul (qDiv used maxc) (intToQ 100) > 95 then
        .ok ⟨st.report ++ ["### ❌ ERROR: High Connection Usage (" ++
            formatRat (qMul (qDiv used maxc) (intToQ 100)) 1 ++ "%)",
          "Current active connections: " ++ ratPyStr used ++ " / " ++ ratPyStr maxc],
          updateStatus st.status .error⟩
      else if qMul (qDiv used maxc) (intToQ 100) > 80 then
        .ok ⟨st.report ++ ["### 🟠 WARNING: High Connection Usage (" ++
            formatRat (qMul (qDiv used maxc) (intToQ 100)) 1 ++ "%)",
          "Current active connections: " ++ ratPyStr used ++ " / " ++ ratPyStr maxc],
          updateStatus st.status .warning⟩
      else
        .ok ⟨st.report ++ ["### ✅ OK: Connection Usage (" ++
            formatRat (qMul (qDiv used maxc) (intToQ 100)) 1 ++ "%)",
          "Current active connections: " ++ ratPyStr used ++ " / " ++ ratPyStr maxc],
          st.status⟩) := by
  have hr : pyRows (.list [.dict [("used_connections", PyVal.num used),
      ("max_connections", PyVal.num maxc)]]) =
      .ok [[("used_connections", PyVal.num used),
        ("max_connections", PyVal.num maxc)]] := rfl
  have hs1 : pySubscript [("used_connections", PyVal.num used),
      ("max_connections", PyVal.num maxc)] "used_connections" =
      .ok (PyVal.num used) := rfl
  have hs2 : pySubscript [("used_connections", PyVal.num used),
      ("max_connections", PyVal.num maxc)] "max_connections" =
      .ok (PyVal.num maxc) := rfl
  have hd : pyDiv used maxc = .ok (qDiv used maxc) := by
    rw [pyDiv, if_neg h]
  have htr : (PyVal.list [PyVal.dict [("used_connections", PyVal.num used),
      ("max_connections", PyVal.num maxc)]]).truthy = true := rfl
  simp only [pgConnectionUsage, htr, if_true, hr, hs1, hs2, PyVal.toRatE, hd,
    okBind, List.headD_cons]
  split_ifs <;> rfl

/-- C7: with usage = current/max*100, usage above 95 yields exactly one
critical/ERROR finding, usage in (80, 95] exactly one warning, and usage
at most 80 none (on the postgres agent the block renders the OK header);
in particular the row current_connections 96 / max_connections 100 yields
one critical finding, overall severity CRITICAL and a nonzero exit code. -/
theorem connection_usage_thresholds :
    (∀ current maxc : ℚ, 0 < maxc →
      (current / maxc * 100 > 95 →
        polarConnUsageRule [("current_connections", .num current),
            ("max_connections", .num maxc)] =
          .ok ([⟨"critical", "get_connection_usage",
            "Connection usage is critical: " ++ ratPyStr current ++ "/" ++
              ratPyStr maxc ++ " (" ++ formatRat (current / maxc * 100) 1 ++ "%)",
            "Increase max_connections or optimize connection pooling"⟩], [])) ∧
      (80 < current / maxc * 100 ∧ current / maxc * 100 ≤ 95 →
        polarConnUsageRule [("current_connections", .num current),
            ("max_connections", .num maxc)] =
          .ok ([], [⟨"warning", "get_connection_usage",
            "Connection usage is high: " ++ ratPyStr current ++ "/" ++
              ratPyStr maxc ++ " (" ++ formatRat (current / maxc * 100) 1 ++ "%)",
            "Monitor connection growth and consider connection pooling"⟩])) ∧
      (current / maxc * 100 ≤ 80 →
        polarConnUsageRule [("current_connections", .num current),
            ("max_connections", .num maxc)] = .ok ([], []))) ∧
    (∀ (st : AgentState) (used maxc : ℚ), maxc ≠ 0 →
      (used / maxc * 100 > 95 →
        pgConnectionUsage st (.list [.dict [("used_connections", .num used),
            ("max_connections", .num maxc)]]) =
          .ok ⟨st.report ++ ["### ❌ ERROR: High Connection Usage (" ++
              formatRat (used / maxc * 100) 1 ++ "%)",
            "Current active connections: " ++ ratPyStr used ++ " / " ++
              ratPyStr maxc], updateStatus st.status .error⟩) ∧
      (80 < used / maxc * 100 ∧ used / maxc * 100 ≤ 95 →
        pgConnectionUsage st (.list [.dict [("used_connections", .num used),
            ("max_connections", .num maxc)]]) =
          .ok ⟨st.report ++ ["### 🟠 WARNING: High Connection Usage (" ++
              formatRat (used / maxc * 100) 1 ++ "%)",
            "Current active connections: " ++ ratPyStr used ++ " / " ++
              ratPyStr maxc], updateStatus st.status .warning⟩) ∧
      (used / maxc * 100 ≤ 80 →
        pgConnectionUsage st (.list [.dict [("used_connections", .num used),
            ("max_connections", .num maxc)]]) =
          .ok ⟨st.report ++ ["### ✅ OK: Connection Usage (" ++
              formatRat (used / maxc * 100) 1 ++ "%)",
            "Current active connections: " ++ ratPyStr used ++ " / " ++
              ratPyStr maxc], st.status⟩)) ∧
    (polarAnalyzeResults [("get_connection_usage", connUsage96Result)] =
      .ok ([connUsage96Finding], [])) ∧
    (polarOverallStatus [connUsage96Finding] [] = Status.error) ∧
    (polarExitCode (polarRunSuccess [connUsage96Finding]) = 1) := by
  refine ⟨?_, ?_, rfl, rfl, rfl⟩
  · intro current maxc hpos
    have husage : qMul (qDiv current maxc) (intToQ 100) = current / maxc * 100 := by
      rw [qMul_eq, qDiv_eq, intToQ_eq]
      norm_num
    rw [polarConnUsageRule_num current maxc hpos, husage]
    refine ⟨?_, ?_, ?_⟩
    · intro h
      rw [if_pos h]
    · intro h
      rw [if_neg (by linarith [h.2]), if_pos h.1]
    · intro h
      rw [if_neg (by linarith), if_neg (by linarith)]
  · intro st used maxc hne
    have husage : qMul (qDiv used maxc) (intToQ 100) = used / maxc * 100 := by
      rw [qMul_eq, qDiv_eq, intToQ_eq]
      norm_num
    rw [pgConnectionUsage_num st used maxc hne, husage]
    refine ⟨?_, ?_, ?_⟩
    · intro h
      rw [if_pos h]
    · intro h
      rw [if_neg (by linarith [h.2]), if_pos h.1]
    · intro h
      rw [if_neg (by linarith), if_neg (by linarith)]

/-- Witness for C7: usage 96 percent on both agents. -/
theorem connection_usage_thresholds_witness :
    polarConnUsageRule [("current_connections", PyVal.num 96),
        ("max_connections", PyVal.num 100)] =
      .ok ([connUsage96Finding], []) ∧
    pgConnectionUsage ⟨[], Status.ok⟩
        (.list [.dict [("used_connections", PyVal.num 96),
          ("max_connections", PyVal.num 100)]]) =
      .ok ⟨["### ❌ ERROR: High Connection Usage (96.0%)",
        "Current active connections: 96 / 100"], Status.error⟩ := by
  have e : (96 : ℚ) / 100 * 100 = 96 := by norm_num
  constructor
  · have h1 := (connection_usage_thresholds.1 96 100 (by norm_num)).1 (by norm_num)
    rw [h1, e]
    rfl
  · have h2 :=
      (connection_usage_thresholds.2.1 ⟨[], Status.ok⟩ 96 100 (by norm_num)).1
        (by norm_num)
    rw [h2, e]
    rfl

/-- C9: counterexample. On unparseable output, polardb run_check
synthesizes a result with status "unknown" and the raw text under
raw_output — it has no message field and its status is not "fail",
contradicting the claim for the polardb agent. -/
theorem unparseable_output_unknown_not_fail :
    runCheckPolar "get_pfs_usage" (.completed "not json" "" 0)
        (fun _ => .error "Expecting value: line 1 column 1 (char 0)") =
      .dict [("skill", .str "get_pfs_usage"), ("status", .str "unknown"),
             ("raw_output", .str "not json")] ∧
    dictGet [("skill", PyVal.str "get_pfs_usage"), ("status", PyVal.str "unknown"),
      ("raw_output", PyVal.str "not json")] "message" = none ∧
    pyEqStr (dictGetD [("skill", PyVal.str "get_pfs_usage"),
      ("status", PyVal.str "unknown"), ("raw_output", PyVal.str "not json")]
      "status" (.str "fail")) "fail" = false :=
  ⟨rfl, rfl, rfl⟩

/-- C9: amended claim. Neither agent propagates a parse exception, but
the synthesized shapes differ from the claim: the polardb agent returns
status "unknown" with the stripped text under raw_output, and the postgres
agent returns status "fail" with the parse error and raw stdout inside the
data field (no message field on either agent). -/
theorem parse_failure_synthesized_results :
    (∀ (check stdout stderr : String) (rc : ℤ)
       (parse : String → Except String PyVal) (e : String),
      parse (if strStrip stdout = "" then strStrip stderr else strStrip stdout) =
        .error e →
      runCheckPolar check (.completed stdout stderr rc) parse =
        .dict [("skill", .str check), ("status", .str "unknown"),
          ("raw_output", .str (if strStrip stdout = "" then strStrip stderr
            else strStrip stdout))]) ∧
    (∀ (skill stdout stderr : String) (parse : String → Except String PyVal)
       (e : String),
      strStrip stdout ≠ "" → parse stdout = .error e →
      runSkillPg skill (.completed stdout stderr 0) parse =
        .dict [("skill", .str skill), ("status", .str "fail"),
          ("data", .str ("Failed to parse JSON output: " ++ e ++
            ". Raw output: " ++ stdout))]) := by
  constructor
  · intro check stdout stderr rc parse e h
    simp only [runCheckPolar, h]
  · intro skill stdout stderr parse e hne h
    simp only [runSkillPg]
    rw [if_neg (show ¬((0 : ℤ) ≠ 0) by simp), if_neg hne, h]

/-- Witness for C9: concrete unparseable outputs on both agents. -/
theorem parse_failure_synthesized_results_witness :
    runCheckPolar "get_px_nodes" (.completed " raw " "" 5)
        (fun _ => .error "Expecting value") =
      .dict [("skill", .str "get_px_nodes"), ("status", .str "unknown"),
        ("raw_output", .str "raw")] ∧
    runSkillPg "get_table_bloat" (.completed "oops" "" 0)
        (fun _ => .error "Expecting value") =
      .dict [("skill", .str "get_table_bloat"), ("status", .str "fail"),
        ("data", .str "Failed to parse JSON output: Expecting value. Raw output: oops")] :=
  ⟨parse_failure_synthesized_results.1 "get_px_nodes" " raw " "" 5
      (fun _ => .error "Expecting value") "Expecting value" rfl,
   parse_failure_synthesized_results.2 "get_table_bloat" "oops" ""
      (fun _ => .error "Expecting value") "Expecting value" (by decide) rfl⟩

/-- C10: counterexample. When the output parses, run_check returns the
parsed value verbatim: an empty JSON object comes back as an empty dict
with neither a skill nor a status key, contradicting the claim that every
return path yields a dict containing those keys. -/
theorem run_check_success_payload_passthrough :
    runCheckPolar "get_px_workers_status" (.completed "x" "" 0)
        (fun _ => .ok (.dict [])) = .dict [] ∧
    dictGet ([] : PyDict) "skill" = none ∧
    dictGet ([] : PyDict) "status" = none :=
  ⟨rfl, rfl, rfl⟩

/-- C10: amended claim. run_check is total and each handler path returns
a dict carrying skill and status: timeout gives status "timeout" with
message "Check timed out after 60 seconds", any other exception gives
status "error" with its text, and unparseable output gives status
"unknown" with the raw text under raw_output; but the successful-parse
path returns the parsed JSON verbatim, which carries skill and status keys
only when the external output does. -/
theorem run_check_total_branch_shapes :
    (∀ (check : String) (parse : String → Except String PyVal),
      runCheckPolar check .timedOut parse =
        .dict [("skill", .str check), ("status", .str "timeout"),
          ("message", .str "Check timed out after 60 seconds")]) ∧
    (∀ (check msg : String) (parse : String → Except String PyVal),
      runCheckPolar check (.raised msg) parse =
        .dict [("skill", .str check), ("status", .str "error"),
          ("message", .str msg)]) ∧
    (∀ (check stdout stderr : String) (rc : ℤ)
       (parse : String → Except String PyVal) (e : String),
      parse (if strStrip stdout = "" then strStrip stderr else strStrip stdout) =
        .error e →
      runCheckPolar check (.completed stdout stderr rc) parse =
        .dict [("skill", .str check), ("status", .str "unknown"),
          ("raw_output", .str (if strStrip stdout = "" then strStrip stderr
            else strStrip stdout))]) ∧
    (∀ (check stdout stderr : String) (rc : ℤ)
       (parse : String → Except String PyVal) (v : PyVal),
      parse (if strStrip stdout = "" then strStrip stderr else strStrip stdout) =
        .ok v →
      runCheckPolar check (.completed stdout stderr rc) parse = v) := by
  refine ⟨fun check parse => rfl, fun check msg parse => rfl, ?_, ?_⟩
  · intro check stdout stderr rc parse e h
    simp only [runCheckPolar, h]
  · intro check stdout stderr rc parse v h
    simp only [runCheckPolar, h]

/-- Witness for C10: the timeout handler and a well-formed passthrough. -/
theorem run_check_total_branch_shapes_witness :
    runCheckPolar "get_logindex_status" .timedOut (fun _ => .error "unused") =
      .dict [("skill", .str "get_logindex_status"), ("status", .str "timeout"),
        ("message", .str "Check timed out after 60 seconds")] ∧
    runCheckPolar "get_polar_activity" (.completed "payload" "" 0)
        (fun _ => .ok (.dict [("skill", .str "get_polar_activity"),
          ("status", .str "success"), ("data", .list [])])) =
      .dict [("skill", .str "get_polar_activity"), ("status", .str "success"),
        ("data", .list [])] :=
  ⟨run_check_total_branch_shapes.1 "get_logindex_status" (fun _ => .error "unused"),
   run_check_total_branch_shapes.2.2.2 "get_polar_activity" "payload" "" 0
     (fun _ => .ok (.dict [("skill", .str "get_polar_activity"),
       ("status", .str "success"), ("data", .list [])])) _ rfl⟩
